import Mathlib

set_option autoImplicit false

/-!
Shallow embedding of the Opportunity Pipeline of the `ai-deals2buy` repository:
the opportunity memory (src/core/memory.py), the data model (src/data/models.py),
the vector-store ingestion (src/agents/rag_vectordb.py, src/rag/vectorstore.py),
the similarity retriever (src/rag/retriever.py), the ensemble price estimator
(src/agents/pricing/ensemble_agent.py) and the visualization projector
(src/utils/visualization.py).

Python floats are embedded as exact rationals (ℚ); JSON content parsed by
`json.load` is embedded as the inductive `JVal`; the memory backing file is
`Option JVal` (`none` = the file does not exist); fallible operations return
`Except String`. External collaborators (the sentence-transformers embedding
model, the sklearn TSNE reduction, the sub-estimators of the ensemble, the
dataset download) are opaque function parameters.
-/

namespace AiDeals

/-- JSON values as produced by Python's `json.load` and consumed by `json.dump`.
Numbers are embedded as exact rationals. -/
inductive JVal where
  | null
  | bool (b : Bool)
  | num (q : ℚ)
  | str (s : String)
  | arr (elems : List JVal)
  | obj (fields : List (String × JVal))

/-- First value bound to `key` in a JSON object's field list (Python dict lookup;
`json.load` keeps one binding per key). -/
def jLookup (fields : List (String × JVal)) (key : String) : Option JVal :=
  (fields.find? (fun f => f.1 == key)).map (fun f => f.2)

/-- src/data/models.py lines 12-30: `Deal` — product_description, price, url. -/
structure Deal where
  product_description : String
  price : ℚ
  url : String
  deriving DecidableEq

/-- src/data/models.py lines 47-54: `Opportunity` — deal, estimate, discount.
The pydantic model declares three independent fields and no validator relating
them. -/
structure Opportunity where
  deal : Deal
  estimate : ℚ
  discount : ℚ
  deriving DecidableEq

/-- Pydantic validation of a `Deal` from a JSON value: an object carrying a
string `product_description`, a numeric `price` and a string `url`; extra keys
are ignored (pydantic's default), anything else is a validation error.
(Pydantic's lax coercion of numeric strings to floats is not modelled; no claim
exercises it.) -/
def parseDeal : JVal → Except String Deal
  | JVal.obj fields =>
    match jLookup fields "product_description", jLookup fields "price",
        jLookup fields "url" with
    | some (JVal.str pd), some (JVal.num p), some (JVal.str u) =>
      Except.ok { product_description := pd, price := p, url := u }
    | _, _, _ => Except.error "ValidationError: Deal"
  | _ => Except.error "ValidationError: Deal"

/-- src/core/memory.py line 20: `Opportunity(**item)` — `item` must be a JSON
object (otherwise the `**` splat raises TypeError) with a `deal` object and
numeric `estimate` and `discount`; extra keys are ignored. No relation between
`discount`, `estimate` and `deal.price` is checked. -/
def parseOpportunity : JVal → Except String Opportunity
  | JVal.obj fields =>
    match jLookup fields "deal", jLookup fields "estimate",
        jLookup fields "discount" with
    | some dealVal, some (JVal.num e), some (JVal.num disc) =>
      match parseDeal dealVal with
      | Except.ok d => Except.ok { deal := d, estimate := e, discount := disc }
      | Except.error msg => Except.error msg
    | _, _, _ => Except.error "ValidationError: Opportunity"
  | _ => Except.error "TypeError: argument after ** must be a mapping"

/-- `Deal.model_dump`: the JSON object written by pydantic for a `Deal`. -/
def Deal.model_dump (d : Deal) : JVal :=
  JVal.obj [("product_description", JVal.str d.product_description),
            ("price", JVal.num d.price),
            ("url", JVal.str d.url)]

/-- `Opportunity.model_dump`: the JSON object written by pydantic for an
`Opportunity` (src/core/memory.py line 24). -/
def Opportunity.model_dump (o : Opportunity) : JVal :=
  JVal.obj [("deal", o.deal.model_dump),
            ("estimate", JVal.num o.estimate),
            ("discount", JVal.num o.discount)]

namespace MemoryStore

/-- src/core/memory.py lines 16-21: `MemoryStore.read`. The backing file is
`Option JVal` (`none` = `os.path.exists` is false → return `[]`). When the file
holds a JSON array, every element is validated into an `Opportunity`; the first
malformed element fails the whole read. A non-array top level: iterating an
empty dict or empty string yields `[]`; iterating a non-empty dict or string
feeds a string into `Opportunity(**item)` (TypeError); other values are not
iterable (TypeError). -/
def read : Option JVal → Except String (List Opportunity)
  | none => Except.ok []
  | some (JVal.arr items) => items.mapM parseOpportunity
  | some (JVal.obj fields) =>
    if fields.isEmpty then Except.ok []
    else Except.error "TypeError: argument after ** must be a mapping"
  | some (JVal.str s) =>
    if s.isEmpty then Except.ok []
    else Except.error "TypeError: argument after ** must be a mapping"
  | some _ => Except.error "TypeError: object is not iterable"

/-- src/core/memory.py lines 23-26: `MemoryStore.write` — serializes the full
sequence; the backing file afterwards holds exactly this JSON array. -/
def write (opportunities : List Opportunity) : JVal :=
  JVal.arr (opportunities.map Opportunity.model_dump)

/-- src/core/memory.py lines 28-39: `MemoryStore.reset_keep_first` — `data = []`
if the file is absent, else `json.load`; `truncated = data[:n]`; `json.dump`
writes the result. Python slicing also succeeds on a string top level (character
slice); slicing a dict/number/bool/null raises TypeError. Returns the new
backing-file content. No `Opportunity` values are constructed. -/
def reset_keep_first (store : Option JVal) (n : ℕ) : Except String JVal :=
  match store with
  | none => Except.ok (JVal.arr [])
  | some (JVal.arr elems) => Except.ok (JVal.arr (elems.take n))
  | some (JVal.str s) => Except.ok (JVal.str (s.take n))
  | some _ => Except.error "TypeError: unhashable type: slice"

end MemoryStore

/-- An `Opportunity` whose discount (5) differs from estimate - deal.price
(100 - 10 = 90). -/
def inconsistentOpportunity : Opportunity :=
  { deal := { product_description := "x", price := 10, url := "u" },
    estimate := 100, discount := 5 }

/-- A JSON array whose single element (the number 5) is not a valid Opportunity
serialization. -/
def malformedMemoryArray : JVal := JVal.arr [JVal.num 5]

/-! ## Vector store records and the similarity retriever -/

/-- One vector-store record (spec §3 "Vector Store Record"): id, embedding,
document text and the {category, price} metadata written at ingestion
(src/agents/rag_vectordb.py line 146, src/rag/vectorstore.py line 133). -/
structure VRecord where
  id : String
  document : String
  embedding : List ℚ
  category : String
  price : ℚ
  deriving DecidableEq

/-- A chroma collection: the ordered list of its records. -/
structure Collection where
  records : List VRecord
  deriving DecidableEq

/-- src/agents/rag_vectordb.py lines 74-84 `_safe_collection_count` and
src/rag/vectorstore.py lines 63-73 `_collection_count`: `collection.count()`
with a bounded-probe fallback and a zero fallback for store exceptions. In the
pure model `count` cannot throw, so the fallbacks are unreachable and the
result is the exact record count. -/
def safeCollectionCount (c : Collection) : ℕ := c.records.length

/-- Squared Euclidean distance between two embeddings: the nearest-neighbour
ordering key of the underlying index. -/
def sqDist (u v : List ℚ) : ℚ :=
  ((u.zip v).map (fun p => (p.1 - p.2) ^ 2)).sum

/-- Model of chroma `collection.query(query_embeddings=[v], n_results=n)` for a
single query embedding: the stored records ordered nearest-first, truncated to
`n_results` (the index returns at most `n_results` matches, fewer when the
collection is smaller). -/
def Collection.query (c : Collection) (queryEmbedding : List ℚ)
    (nResults : ℕ) : List VRecord :=
  (c.records.mergeSort (fun r s =>
    decide (sqDist queryEmbedding r.embedding ≤ sqDist queryEmbedding s.embedding))).take
    nResults

/-- src/rag/retriever.py lines 9-16: `ChromaRetriever` holds the collection and
the embedding model; the model (src/rag/embeddings.py `embed_texts` on a
single text, an external sentence-transformers call) is an opaque
text-to-vector function. -/
structure ChromaRetriever where
  collection : Collection
  embed : String → List ℚ

/-- src/rag/retriever.py lines 18-26: embed the description, query the
collection for `n_results` nearest matches, return the matched documents and
the `price` metadata of each match as parallel lists. -/
def ChromaRetriever.query_similars (r : ChromaRetriever) (description : String)
    (nResults : ℕ := 5) : List String × List ℚ :=
  let vector := r.embed description
  let results := Collection.query r.collection vector nResults
  (results.map (fun m => m.document), results.map (fun m => m.price))

/-! ## The ensemble price estimator -/

/-- src/agents/pricing/ensemble_agent.py lines 7-21: the ensemble holds a
specialist estimator, a frontier estimator and a preprocessor. The three
collaborators (SpecialistAgent, FrontierAgent, Preprocessor) are external to
the core and embedded as opaque functions. -/
structure EnsembleAgent where
  specialist : String → ℚ
  frontier : String → ℚ
  preprocess : String → String

/-- src/agents/pricing/ensemble_agent.py lines 23-41: preprocess the
description, price the rewrite with both estimators, and combine with the fixed
weights `combined = frontier * 0.8 + specialist * 0.2`. -/
def EnsembleAgent.price (a : EnsembleAgent) (description : String) : ℚ :=
  let rewrite := a.preprocess description
  let specialist := a.specialist rewrite
  let frontier := a.frontier rewrite
  frontier * 0.8 + specialist * 0.2

/-- An ensemble whose frontier estimator returns 100 and whose specialist
returns 50 on every text. -/
def constEnsemble : EnsembleAgent :=
  { specialist := fun _ => 50, frontier := fun _ => 100, preprocess := id }

/-! ## The visualization projector -/

/-- src/config/constants.py lines 6-15: the fixed, ordered category list. -/
def CATEGORIES : List String :=
  ["Appliances", "Automotive", "Cell_Phones_and_Accessories", "Electronics",
   "Musical_Instruments", "Office_Products", "Tools_and_Home_Improvement",
   "Toys_and_Games"]

/-- src/config/constants.py line 17: the color palette. -/
def COLORS : List String :=
  ["red", "blue", "brown", "orange", "yellow", "green", "purple", "cyan"]

/-- src/utils/visualization.py lines 47-48: the position-based palette
`color_map = \x7bcat: COLORS[i % len(COLORS)] for i, cat in enumerate(CATEGORIES)\x7d`
with `color_map.get(cat, "gray")` for unrecognized categories. -/
def colorFor (cat : String) : String :=
  match CATEGORIES.findIdx? (fun c => c == cat) with
  | some i => COLORS.getD (i % COLORS.length) "gray"
  | none => "gray"

/-- src/utils/visualization.py lines 11-13 `_empty_plot_tuple`: the explicit
empty result. The numpy matrix `np.array([]).reshape(0, 3)` has 0 rows (the 3
columns are a shape artifact of the empty array); it is embedded as the empty
list of rows. -/
def emptyPlotTuple : List String × List (List ℚ) × List String := ([], [], [])

/-- src/utils/visualization.py lines 15-52 `compute_tsne_plot_data`. The
collection `get(include=[...], limit=max_datapoints)` returns the first
`max_datapoints` records; `reduce` is the external
`TSNE(n_components=3, random_state=42).fit_transform`, opaque here. For the
rectangular n×d embedding matrix, `vectors.size == 0` is `n*d == 0`, embedded
as a zero sum of row lengths, and `vectors.shape[0]` is `n`. The defensive
`embeddings is None` branch and the chroma nested-metadata normalization
(lines 33-34 and 43-45) have no counterpart on the flat record model. -/
def compute_tsne_plot_data (reduce : List (List ℚ) → List (List ℚ))
    (collection : Collection) (maxDatapoints : ℕ := 2000)
    (minSamples : ℕ := 31) : List String × List (List ℚ) × List String :=
  let recs := collection.records.take maxDatapoints
  let embeddings := recs.map (fun r => r.embedding)
  if (embeddings.map List.length).sum = 0 ∨ embeddings.length < minSamples then
    emptyPlotTuple
  else
    let documents := recs.map (fun r => r.document)
    let categories := recs.map (fun r => r.category)
    let colors := categories.map colorFor
    (documents, reduce embeddings, colors)

/-- A constant stand-in for the TSNE reduction: every embedding row is sent to
the origin of ℚ³; satisfies the sklearn output-shape contract. -/
def constReduce (m : List (List ℚ)) : List (List ℚ) :=
  m.map (fun _ => [0, 0, 0])

/-- A demo record with a one-dimensional embedding. -/
def mkDemoRecord (i : ℕ) : VRecord :=
  { id := "doc_" ++ toString i, document := "d", embedding := [1],
    category := "Electronics", price := 1 }

/-- A collection of 30 embedded records. -/
def demoCollection30 : Collection := { records := (List.range 30).map mkDemoRecord }

/-- A collection of 31 embedded records. -/
def demoCollection31 : Collection := { records := (List.range 31).map mkDemoRecord }

/-! ## Vector-store ingestion -/

/-- src/data/models.py lines 57-69: `Item` — a catalogue record. The
hub-dataset and prompt methods are external I/O and not modelled. -/
structure Item where
  title : String
  category : String
  price : ℚ
  full : Option String := none
  weight : Option ℚ := none
  summary : Option String := none
  prompt : Option String := none
  id : Option Int := none
  deriving DecidableEq

/-- Python truthiness of `s and s.strip()` on an optional string field: the
field is set and contains a non-whitespace character (an unset field, the empty
string and whitespace-only strings are all falsy, since `"".strip()` is empty).
-/
def hasContent : Option String → Bool
  | none => false
  | some s => s.data.any (fun c => !c.isWhitespace)

/-- src/agents/rag_vectordb.py lines 60-66 `_item_document`: the stored
document text — the summary when set and non-blank, else the full text when
set and non-blank, else the synthesized title/category string. -/
def _item_document (item : Item) : String :=
  if hasContent item.summary then item.summary.getD ""
  else if hasContent item.full then item.full.getD ""
  else item.title ++ " (" ++ item.category ++ ")"

/-- Fuel-indexed helper for `_batched`; fuel = length of the remaining list,
which suffices for every batch size ≥ 1. -/
def _batchedAux : ℕ → List Item → ℕ → List (List Item)
  | _, [], _ => []
  | 0, _ :: _, _ => []
  | fuel + 1, x :: xs, batchSize =>
    (x :: xs).take batchSize :: _batchedAux fuel ((x :: xs).drop batchSize) batchSize

/-- src/agents/rag_vectordb.py lines 69-71 `_batched`: the fixed-size chunks
`it[i : i + batch_size]` for `i = 0, batch_size, 2*batch_size, ...`. -/
def _batched (l : List Item) (batchSize : ℕ) : List (List Item) :=
  _batchedAux l.length l batchSize

/-- Chroma `collection.add(ids, documents, embeddings, metadatas)`: the call is
rejected when an id duplicates an existing record's id or another id of the
same call (the collision the source handles with a fallback id scheme);
otherwise one record per id is appended. Metadata is the (category, price)
pair. -/
def Collection.add (c : Collection) (ids documents : List String)
    (embeddings : List (List ℚ)) (metadatas : List (String × ℚ)) :
    Except String Collection :=
  let newRecords : List VRecord :=
    (ids.zip (documents.zip (embeddings.zip metadatas))).map
      (fun e => VRecord.mk e.1 e.2.1 e.2.2.1 e.2.2.2.1 e.2.2.2.2)
  if ids.any (fun i => c.records.any (fun r => r.id == i)) || !decide ids.Nodup then
    Except.error "DuplicateIDError"
  else
    Except.ok (Collection.mk (c.records ++ newRecords))

/-- The observable external actions of an ingestion run: collection deletion,
embedding-model calls, and store inserts. -/
inductive IngestEffect where
  | deleteCollection (name : String)
  | encode (texts : List String)
  | add (ids : List String) (documents : List String)
  deriving DecidableEq

/-- src/agents/rag_vectordb.py lines 142-168: the ingestion loop. Per batch:
document texts via `_item_document`, one embedding call, metadatas
{category, price}, ids `doc_<item.id>` when the item carries an id and
sequential `doc_<id_offset + batch_idx*batch_size + j>` otherwise; a rejected
insert is retried once with `<repo_name>_doc_...` ids and a second rejection
propagates. Returns the effect trace and the grown collection. -/
def ingestBatches (encode : List String → List (List ℚ)) (repoName : String)
    (idOffset batchSize : ℕ) :
    List (List Item) → ℕ → Collection →
    Except String (List IngestEffect × Collection)
  | [], _, c => Except.ok ([], c)
  | batch :: rest, batchIdx, c =>
    let documents := batch.map _item_document
    let vectors := encode documents
    let metadatas := batch.map (fun item => (item.category, item.price))
    let ids := batch.enum.map (fun ji =>
      match ji.2.id with
      | some i => "doc_" ++ toString i
      | none => "doc_" ++ toString (idOffset + batchIdx * batchSize + ji.1))
    match Collection.add c ids documents vectors metadatas with
    | Except.ok c' =>
      match ingestBatches encode repoName idOffset batchSize rest (batchIdx + 1) c' with
      | Except.ok (effects, cFinal) =>
        Except.ok (IngestEffect.encode documents ::
          IngestEffect.add ids documents :: effects, cFinal)
      | Except.error msg => Except.error msg
    | Except.error _ =>
      let fallbackIds := (List.range batch.length).map (fun j =>
        repoName ++ "_doc_" ++ toString (idOffset + batchIdx * batchSize + j))
      match Collection.add c fallbackIds documents vectors metadatas with
      | Except.ok c' =>
        match ingestBatches encode repoName idOffset batchSize rest (batchIdx + 1) c' with
        | Except.ok (effects, cFinal) =>
          Except.ok (IngestEffect.encode documents ::
            IngestEffect.add ids documents ::
            IngestEffect.add fallbackIds documents :: effects, cFinal)
        | Except.error msg => Except.error msg
      | Except.error msg => Except.error msg

/-- src/agents/rag_vectordb.py lines 36-43 `VectorDbConfig` (the filesystem
`db_path` carries no logic and is omitted). -/
structure VectorDbConfig where
  collectionName : String := "products"
  dataset : String := "ed-donner/items_lite"
  modelName : String := "sentence-transformers/all-MiniLM-L6-v2"
  batchSize : ℕ := 1000
  maxItems : Option ℕ := none

/-- src/agents/rag_vectordb.py lines 87-172 `build_products_vectordb` (the
src/rag/vectorstore.py lines 76-142 variant has the same
delete / count / early-return skeleton). `train` is the dataset
(`Item.from_hub`, external), `encode` the embedding model, `repoName` the repo
directory name used by the fallback id scheme, `store` the current state of the
named collection (`none` = absent; `get_or_create_collection` yields an empty
one). If forcing, the collection is deleted first; then, if the existing count
already meets `min_required` and we are not forcing, the function returns that
count untouched; otherwise the (optionally capped) dataset is ingested in
batches with `id_offset = 0 if force_recreate else max(existing, 0)`. Returns
the effect trace, the final collection and the returned count (read back from
the store). -/
def build_products_vectordb (encode : List String → List (List ℚ))
    (repoName : String) (train : List Item) (config : VectorDbConfig)
    (minRequired : ℕ) (forceRecreate : Bool) (store : Option Collection) :
    Except String (List IngestEffect × Collection × ℕ) :=
  let deleteEffects : List IngestEffect :=
    cond forceRecreate [IngestEffect.deleteCollection config.collectionName] []
  let store' := cond forceRecreate none store
  let collection := store'.getD { records := [] }
  let existing := safeCollectionCount collection
  if existing ≥ minRequired ∧ forceRecreate = false then
    Except.ok (deleteEffects, collection, existing)
  else
    let train' := match config.maxItems with
      | some m => train.take m
      | none => train
    let idOffset := cond forceRecreate 0 (max existing 0)
    match ingestBatches encode repoName idOffset config.batchSize
        (_batched train' config.batchSize) 0 collection with
    | Except.ok (effects, final) =>
      Except.ok (deleteEffects ++ effects, final, safeCollectionCount final)
    | Except.error msg => Except.error msg

/-- An item whose summary is present but blank (a single space) and whose full
text is absent. -/
def blankSummaryItem : Item :=
  { title := "USB cable", category := "Electronics", price := 10,
    summary := some " " }

/-- A one-dimensional stand-in for the embedding model. -/
def constEncode (texts : List String) : List (List ℚ) :=
  texts.map (fun _ => [1])

/-- The record a concrete ingestion run of `blankSummaryItem` stores. -/
def blankSummaryRecord : VRecord :=
  { id := "doc_0", document := "USB cable (Electronics)", embedding := [1],
    category := "Electronics", price := 10 }

/-! ## Theorems -/

/-- A string containing a non-whitespace character is truthy after stripping. -/
theorem hasContent_some_true {s : String}
    (h : ∃ c ∈ s.data, c.isWhitespace = false) :
    hasContent (some s) = true := by
  obtain ⟨c, hc, hw⟩ := h
  simp only [hasContent, List.any_eq_true]
  exact ⟨c, hc, by simp [hw]⟩

/-- An absent or all-whitespace optional string is falsy after stripping. -/
theorem hasContent_false_of_all (o : Option String)
    (h : ∀ s, o = some s → ∀ c ∈ s.data, c.isWhitespace = true) :
    hasContent o = false := by
  cases o with
  | none => rfl
  | some s =>
    rw [Bool.eq_false_iff]
    intro hany
    simp only [hasContent, List.any_eq_true] at hany
    obtain ⟨c, hc, hw⟩ := hany
    simp [h s rfl c hc] at hw

/-- Validating the dump of an `Opportunity` recovers it exactly. -/
theorem parse_model_dump (o : Opportunity) :
    parseOpportunity o.model_dump = Except.ok o := rfl

/-- C1: on a backing store holding a JSON array of length L,
`reset_keep_first n` leaves the store holding exactly the first `min n L`
elements in order (a length-`min n L` prefix of the original array), and on a
missing backing store it writes the empty array; neither case is an error. -/
theorem reset_keep_first_keeps_prefix (elems : List JVal) (n : ℕ) :
    (∃ kept : List JVal,
      MemoryStore.reset_keep_first (some (JVal.arr elems)) n =
        Except.ok (JVal.arr kept) ∧
      kept.length = min n elems.length ∧ kept <+: elems) ∧
    MemoryStore.reset_keep_first none n = Except.ok (JVal.arr []) := by
  refine ⟨⟨elems.take n, rfl, ?_, List.take_prefix n elems⟩, rfl⟩
  simp [List.length_take]

/-- C5: reading a missing backing store returns the empty sequence, not an
error. -/
theorem read_absent_store_is_empty :
    MemoryStore.read none = Except.ok [] := rfl

/-- C6: writing any sequence of Opportunities and reading it back returns the
very same sequence (same length, fields equal position by position). -/
theorem write_read_roundtrip (opps : List Opportunity) :
    MemoryStore.read (some (MemoryStore.write opps)) = Except.ok opps := by
  show (opps.map Opportunity.model_dump).mapM parseOpportunity = Except.ok opps
  induction opps with
  | nil => rfl
  | cons o rest ih =>
    simp only [List.map_cons, List.mapM_cons, parse_model_dump, ih,
      bind_pure_comp, map_pure]
    rfl

/-- Single-element round trip, independent helper for the discount claims. -/
theorem write_read_roundtrip_single (o : Opportunity) :
    MemoryStore.read (some (MemoryStore.write [o])) = Except.ok [o] := by
  show ([o].map Opportunity.model_dump).mapM parseOpportunity = Except.ok [o]
  simp only [List.map_cons, List.map_nil, List.mapM_cons, parse_model_dump,
    List.mapM_nil, bind_pure_comp, map_pure]
  rfl

/-- C7 counterexample: the implementation performs no enforcement or validation
of `discount = estimate - deal.price`: an Opportunity with price 10,
estimate 100 and discount 5 is accepted, persisted and read back unchanged,
although its discount differs from estimate - deal.price. -/
theorem discount_not_validated :
    MemoryStore.read (some (MemoryStore.write [inconsistentOpportunity])) =
      Except.ok [inconsistentOpportunity] ∧
    inconsistentOpportunity.discount ≠
      inconsistentOpportunity.estimate - inconsistentOpportunity.deal.price := by
  refine ⟨write_read_roundtrip_single inconsistentOpportunity,
    by norm_num [inconsistentOpportunity]⟩

/-- C7 amended: `discount` is an independent field; for every deal, estimate
and discount value — consistent with `estimate - deal.price` or not — the
memory accepts, persists and returns the Opportunity unchanged. The
`discount = estimate - deal.price` relation is a convention of the (external)
producer, not enforced or validated by the model or the memory. -/
theorem any_discount_accepted (d : Deal) (e disc : ℚ) :
    MemoryStore.read
        (some (MemoryStore.write [{ deal := d, estimate := e, discount := disc }])) =
      Except.ok [{ deal := d, estimate := e, discount := disc }] :=
  write_read_roundtrip_single _

/-- C10: `reset_keep_first` operates on the raw JSON array without constructing
Opportunity values: it preserves the first n raw elements verbatim for every
array, and it succeeds on an array whose elements are not valid Opportunity
serializations even though `read` fails on that very content. -/
theorem reset_keep_first_raw_elements :
    (∀ (elems : List JVal) (n : ℕ),
      MemoryStore.reset_keep_first (some (JVal.arr elems)) n =
        Except.ok (JVal.arr (elems.take n))) ∧
    (∃ msg, MemoryStore.read (some malformedMemoryArray) = Except.error msg) ∧
    MemoryStore.reset_keep_first (some malformedMemoryArray) 1 =
      Except.ok malformedMemoryArray := by
  refine ⟨fun elems n => rfl, ⟨_, rfl⟩, rfl⟩

/-- C8: `query_similars` returns documents and prices of equal length, at most
`n_results` long; the documents are exactly the documents of the index's
nearest-first matches, and the prices are the price metadata of the matches at
the same positions. -/
theorem query_similars_parallel (r : ChromaRetriever) (description : String)
    (nResults : ℕ) :
    (r.query_similars description nResults).1.length =
      (r.query_similars description nResults).2.length ∧
    (r.query_similars description nResults).1.length ≤ nResults ∧
    (r.query_similars description nResults).1 =
      (Collection.query r.collection (r.embed description) nResults).map
        (fun m => m.document) ∧
    (r.query_similars description nResults).2 =
      (Collection.query r.collection (r.embed description) nResults).map
        (fun m => m.price) := by
  refine ⟨by simp [ChromaRetriever.query_similars], ?_, rfl, rfl⟩
  simp only [ChromaRetriever.query_similars, Collection.query, List.length_map,
    List.length_take]
  omega

/-- C3: the ensemble price is `0.8 * frontier + 0.2 * specialist`, both taken
on the preprocessed rewrite; when the frontier estimate is 100 and the
specialist estimate is 50 the result is exactly 90. (Prices are embedded as
exact rationals; the IEEE evaluation of `0.8*100.0 + 0.2*50.0` also yields
exactly 90.0.) -/
theorem ensemble_price_weighted (a : EnsembleAgent) (description : String) :
    a.price description =
      0.8 * a.frontier (a.preprocess description) +
        0.2 * a.specialist (a.preprocess description) ∧
    (a.frontier (a.preprocess description) = 100 →
      a.specialist (a.preprocess description) = 50 →
      a.price description = 90) := by
  constructor
  · show _ * _ + _ * _ = _
    ring
  · intro hf hs
    show a.frontier (a.preprocess description) * 0.8 +
      a.specialist (a.preprocess description) * 0.2 = 90
    rw [hf, hs]
    norm_num

/-- Witness for C3: on a concrete ensemble with frontier 100 and specialist 50,
the price of a concrete description is exactly 90. -/
theorem ensemble_price_weighted_witness : constEnsemble.price "desc" = 90 :=
  (ensemble_price_weighted constEnsemble "desc").2 rfl rfl

/-- C4: if the store yields fewer than `minSamples` embeddings (in particular
none), the projection is the empty result; with at least `minSamples` (> 0)
retrieved records carrying non-empty embeddings, and `reduce` satisfying the
sklearn output-shape contract (n rows of 3 components), the projection is a
non-empty n×3 matrix with documents and colors of the same length n. -/
theorem tsne_plot_gate (reduce : List (List ℚ) → List (List ℚ))
    (collection : Collection) (maxDatapoints minSamples : ℕ)
    (hshape : ∀ m : List (List ℚ),
      (reduce m).length = m.length ∧ ∀ row ∈ reduce m, row.length = 3) :
    ((collection.records.take maxDatapoints).length < minSamples →
      compute_tsne_plot_data reduce collection maxDatapoints minSamples =
        ([], [], [])) ∧
    (minSamples ≤ (collection.records.take maxDatapoints).length →
      0 < minSamples →
      (∀ r ∈ collection.records, r.embedding ≠ []) →
      ∃ docs vecs cols,
        compute_tsne_plot_data reduce collection maxDatapoints minSamples =
          (docs, vecs, cols) ∧
        vecs ≠ [] ∧
        docs.length = (collection.records.take maxDatapoints).length ∧
        vecs.length = (collection.records.take maxDatapoints).length ∧
        cols.length = (collection.records.take maxDatapoints).length ∧
        ∀ row ∈ vecs, row.length = 3) := by
  constructor
  · intro hlt
    unfold compute_tsne_plot_data
    rw [if_pos]
    · rfl
    · right
      simpa using hlt
  · intro hge hpos hemb
    have hcond : ¬ ((((collection.records.take maxDatapoints).map
        (fun r => r.embedding)).map List.length).sum = 0 ∨
        ((collection.records.take maxDatapoints).map
          (fun r => r.embedding)).length < minSamples) := by
      push_neg
      constructor
      · have hne : collection.records.take maxDatapoints ≠ [] := by
          intro hnil
          rw [hnil] at hge
          simp at hge
          omega
        obtain ⟨r, rest, hcons⟩ := List.exists_cons_of_ne_nil hne
        have hrmem : r ∈ collection.records := by
          have : r ∈ collection.records.take maxDatapoints := by
            rw [hcons]; exact List.mem_cons_self r rest
          exact List.mem_of_mem_take this
        have hrne : r.embedding ≠ [] := hemb r hrmem
        rw [hcons]
        simp only [List.map_cons, List.sum_cons]
        have : 0 < r.embedding.length := List.length_pos.mpr hrne
        omega
      · simpa using hge
    refine ⟨(collection.records.take maxDatapoints).map (fun r => r.document),
      reduce ((collection.records.take maxDatapoints).map (fun r => r.embedding)),
      ((collection.records.take maxDatapoints).map (fun r => r.category)).map
        colorFor, ?_, ?_, by simp, ?_, by simp, (hshape _).2⟩
    · unfold compute_tsne_plot_data
      rw [if_neg hcond]
    · intro hnil
      have hlen := (hshape ((collection.records.take maxDatapoints).map
        (fun r => r.embedding))).1
      rw [hnil] at hlen
      simp only [List.length_nil, List.length_map] at hlen
      omega
    · rw [(hshape _).1]
      simp

/-- Witness for C4: with `min_samples = 31`, a store of 30 embedded records
yields the empty result, and a store of 31 yields a non-empty 31×3 matrix with
matching document/color lengths. -/
theorem tsne_plot_gate_witness :
    (compute_tsne_plot_data constReduce demoCollection30 2000 31 =
      ([], [], [])) ∧
    (∃ docs vecs cols,
      compute_tsne_plot_data constReduce demoCollection31 2000 31 =
        (docs, vecs, cols) ∧
      vecs ≠ [] ∧
      docs.length = (demoCollection31.records.take 2000).length ∧
      vecs.length = (demoCollection31.records.take 2000).length ∧
      cols.length = (demoCollection31.records.take 2000).length ∧
      ∀ row ∈ vecs, row.length = 3) := by
  have hshape : ∀ m : List (List ℚ),
      (constReduce m).length = m.length ∧ ∀ row ∈ constReduce m, row.length = 3 := by
    intro m
    constructor
    · simp [constReduce]
    · intro row hrow
      simp only [constReduce, List.mem_map] at hrow
      obtain ⟨x, _, hx⟩ := hrow
      rw [← hx]
      rfl
  exact ⟨(tsne_plot_gate constReduce demoCollection30 2000 31 hshape).1 (by decide),
    (tsne_plot_gate constReduce demoCollection31 2000 31 hshape).2 (by decide)
      (by decide) (by decide)⟩

/-- C2: when `force_recreate` is false and the collection already holds at
least `min_required` records, ingestion emits no effect at all (no collection
delete, no embedding call, no add), leaves the collection unchanged, and
returns the existing count; a second run on an already-sufficient store is
therefore the same no-op. -/
theorem ingest_noop_when_sufficient (encode : List String → List (List ℚ))
    (repoName : String) (train : List Item) (config : VectorDbConfig)
    (minRequired : ℕ) (collection : Collection)
    (hcount : minRequired ≤ safeCollectionCount collection) :
    build_products_vectordb encode repoName train config minRequired false
        (some collection) =
      Except.ok ([], collection, safeCollectionCount collection) := by
  simp [build_products_vectordb, hcount]

/-- Witness for C2: a store holding one record with `min_required = 1` is left
untouched, with an empty effect trace and the existing count returned. -/
theorem ingest_noop_when_sufficient_witness :
    build_products_vectordb constEncode "ai-deals2buy" [] {} 1 false
        (some { records := [mkDemoRecord 0] }) =
      Except.ok ([], { records := [mkDemoRecord 0] }, 1) :=
  ingest_noop_when_sufficient constEncode "ai-deals2buy" [] {} 1
    { records := [mkDemoRecord 0] } (by decide)

/-- C9 counterexample: an item whose summary is present but blank (a single
space) is ingested with the synthesized title/category document, not with its
(present) summary: a concrete run stores "USB cable (Electronics)" where the
claim as stated requires the summary " ". -/
theorem blank_summary_document_synthesized :
    blankSummaryItem.summary = some " " ∧
    build_products_vectordb constEncode "ai-deals2buy" [blankSummaryItem]
        {} 1 false none =
      Except.ok ([IngestEffect.encode ["USB cable (Electronics)"],
        IngestEffect.add ["doc_0"] ["USB cable (Electronics)"]],
        Collection.mk [blankSummaryRecord], 1) ∧
    "USB cable (Electronics)" ≠ " " := by
  refine ⟨rfl, rfl, by decide⟩

/-- C9 amended: the stored document text is selected deterministically — the
summary when present and non-blank (containing a non-whitespace character);
otherwise the full text when present and non-blank; otherwise the synthesized
"title (category)" string. (The src/rag/vectorstore.py variant takes
`item.summary` unconditionally; the fallback rule is the
src/agents/rag_vectordb.py variant, which the spec designates as
authoritative.) -/
theorem item_document_selection (item : Item) :
    (∀ s, item.summary = some s → (∃ c ∈ s.data, c.isWhitespace = false) →
      _item_document item = s) ∧
    ((∀ s, item.summary = some s → ∀ c ∈ s.data, c.isWhitespace = true) →
      ∀ f, item.full = some f → (∃ c ∈ f.data, c.isWhitespace = false) →
        _item_document item = f) ∧
    ((∀ s, item.summary = some s → ∀ c ∈ s.data, c.isWhitespace = true) →
      (∀ f, item.full = some f → ∀ c ∈ f.data, c.isWhitespace = true) →
      _item_document item = item.title ++ " (" ++ item.category ++ ")") := by
  refine ⟨?_, ?_, ?_⟩
  · intro s hs hex
    unfold _item_document
    rw [hs, hasContent_some_true hex]
    simp
  · intro hsAll f hf hex
    unfold _item_document
    rw [hasContent_false_of_all item.summary hsAll, hf, hasContent_some_true hex]
    simp
  · intro hsAll hfAll
    unfold _item_document
    rw [hasContent_false_of_all item.summary hsAll,
      hasContent_false_of_all item.full hfAll]
    simp

/-- Witness for C9 amended: on the blank-summary item the third branch applies
and the stored document is the synthesized string. -/
theorem item_document_selection_witness :
    _item_document blankSummaryItem = "USB cable (Electronics)" := by
  refine (item_document_selection blankSummaryItem).2.2 ?_ ?_
  · intro s hs c hc
    obtain rfl : s = " " := (Option.some.inj hs).symm
    have hc' : c = ' ' := by
      rw [show (" ").data = [' '] from rfl] at hc
      simpa using hc
    subst hc'
    decide
  · intro f hf
    exact Option.noConfusion hf

end AiDeals
